import Mathlib

/-!
Verification of the Partner Revenue Projection dashboard (`src/app.py`).

The computational core of the program is embedded shallowly over `ℚ`:
* `get_tier_name` and `calculate_revenue_share` mirror the tier lookup
  functions (app.py lines 186-206);
* `calculate_projections` mirrors the simulation loop (lines 208-251),
  with `simStep` the loop body and `calcFrom` the loop itself;
* records carry both the raw loop-local values (`converted_users`,
  `cumulative_converted`, the real-valued accumulators used internally)
  and the `int()`-truncated values stored in the emitted dictionary
  (`converted_users_monthly`, `cumulative_converted_disp`);
* `partner_revenue_per_student`, `additional_revenue_percentage` and
  `months_to_partner` mirror the derived metrics (lines 257-259 and 393).
-/

/-- Python `int()` applied to a real value: truncation toward zero. -/
def int_trunc (q : ℚ) : ℤ := if 0 ≤ q then ⌊q⌋ else ⌈q⌉

/-- Tier name from cumulative converted users (app.py lines 186-195). -/
def get_tier_name (converted_users : ℚ) : String :=
  if converted_users < 1000 then "Affiliate"
  else if converted_users < 2000 then "Partner"
  else if converted_users < 3000 then "Gold Partner"
  else "Owner"

/-- Revenue share percentage from cumulative converted users (app.py lines 197-206). -/
def calculate_revenue_share (converted_users : ℚ) : ℚ :=
  if converted_users < 1000 then 30
  else if converted_users < 2000 then 60
  else if converted_users < 3000 then 65
  else 70

/-- Position of a tier name in the schedule order
Affiliate < Partner < Gold Partner < Owner. -/
def tier_rank (t : String) : ℕ :=
  if t = "Affiliate" then 0
  else if t = "Partner" then 1
  else if t = "Gold Partner" then 2
  else 3

/-- The running state of the simulation loop (app.py lines 211-213). -/
structure SimState where
  cumulative_users : ℕ
  cumulative_converted : ℚ
  cumulative_revenue : ℚ
deriving DecidableEq, Repr

/-- One row appended by the loop (app.py lines 236-249).  The fields
`converted_users` and `cumulative_converted` are the loop-local real
values; `converted_users_monthly` and `cumulative_converted_disp` are the
`int()`-truncated values actually stored in the dictionary. -/
structure ProjRecord where
  month_num : ℕ
  new_users : ℕ
  cumulative_users : ℕ
  converted_users : ℚ
  converted_users_monthly : ℤ
  cumulative_converted : ℚ
  cumulative_converted_disp : ℤ
  tier : String
  revenue_share_pct : ℚ
  gross_revenue : ℚ
  partner_revenue : ℚ
  cumulative_revenue : ℚ
  target_50 : ℚ
deriving DecidableEq, Repr, Inhabited

/-- The converted users of one month: half the nominal rate during the
first (tuning) month, the full rate afterwards (app.py lines 219-223). -/
def converted_of (monthly_new_users : ℕ) (conversion_rate : ℚ) (month : ℕ) : ℚ :=
  if month = 1 then (monthly_new_users : ℚ) * (conversion_rate / 100) * (0.5 : ℚ)
  else (monthly_new_users : ℚ) * (conversion_rate / 100)

/-- The body of the simulation loop (app.py lines 216-249). -/
def simStep (monthly_new_users : ℕ) (conversion_rate : ℚ) (month : ℕ) (s : SimState) :
    SimState × ProjRecord :=
  let cumulative_users := s.cumulative_users + monthly_new_users
  let converted_users : ℚ := converted_of monthly_new_users conversion_rate month
  let cumulative_converted := s.cumulative_converted + converted_users
  let revenue_share_pct := calculate_revenue_share cumulative_converted
  let tier_name := get_tier_name cumulative_converted
  let gross_revenue := converted_users * 39
  let partner_revenue := gross_revenue * (revenue_share_pct / 100)
  let cumulative_revenue := s.cumulative_revenue + partner_revenue
  (⟨cumulative_users, cumulative_converted, cumulative_revenue⟩,
   ⟨month, monthly_new_users, cumulative_users, converted_users,
    int_trunc converted_users, cumulative_converted,
    int_trunc cumulative_converted, tier_name, revenue_share_pct,
    gross_revenue, partner_revenue, cumulative_revenue,
    cumulative_revenue * (0.5 : ℚ)⟩)

/-- The simulation loop from a given month and state, with `remaining`
iterations still to run (app.py line 215). -/
def calcFrom (monthly_new_users : ℕ) (conversion_rate : ℚ) :
    ℕ → ℕ → SimState → List ProjRecord
  | _, 0, _ => []
  | month, remaining + 1, s =>
    let sr := simStep monthly_new_users conversion_rate month s
    sr.2 :: calcFrom monthly_new_users conversion_rate (month + 1) remaining sr.1

/-- Monthly revenue projections (app.py lines 208-251). -/
def calculate_projections (monthly_new_users : ℕ) (conversion_rate : ℚ)
    (num_months : ℕ) : List ProjRecord :=
  calcFrom monthly_new_users conversion_rate 1 num_months ⟨0, 0, 0⟩

/-- Additional revenue per student (app.py line 257); `final_share_pct` is
the revenue share percent of the last simulated record. -/
def partner_revenue_per_student (conversion_rate final_share_pct : ℚ) : ℚ :=
  39 * (conversion_rate / 100) * (final_share_pct / 100)

/-- Additional revenue percentage with division-by-zero fallback
(app.py line 259). -/
def additional_revenue_percentage (conversion_rate current_avg_revenue
    final_share_pct : ℚ) : ℚ :=
  if current_avg_revenue > 0 then
    partner_revenue_per_student conversion_rate final_share_pct
      / current_avg_revenue * 100
  else 0

/-- Months to reach the Partner tier, `none` standing for the string
result N/A (app.py line 393). -/
def months_to_partner (monthly_new_users : ℕ) (conversion_rate : ℚ) : Option ℤ :=
  if 0 < (monthly_new_users : ℚ) * conversion_rate / 100 then
    some ⌈1000 / ((monthly_new_users : ℚ) * conversion_rate / 100)⌉
  else none

/-- Evaluation of the spec's example scenario, shared by several results
below. -/
lemma proj_example_eval :
    calculate_projections 100 10 3 =
      [⟨1, 100, 100, 5, 5, 5, 5, "Affiliate", 30, 195, 58.5, 58.5, 29.25⟩,
       ⟨2, 100, 200, 10, 10, 15, 15, "Affiliate", 30, 390, 117, 175.5, 87.75⟩,
       ⟨3, 100, 300, 10, 10, 25, 25, "Affiliate", 30, 390, 117, 292.5, 146.25⟩] := by
  norm_num [calculate_projections, calcFrom, simStep, converted_of, int_trunc,
    get_tier_name, calculate_revenue_share, ProjRecord.mk.injEq]

/-- C1: for monthlyNewUsers=100, conversionRate=10, numPeriods=3, the
simulation produces exactly the three records of the spec example:
period 1 converted 5.0, cumulative 5.0, Affiliate/30%, gross 195.0,
partner revenue 58.5; period 2 converted 10.0, cumulative 15.0,
Affiliate/30%, gross 390.0, partner revenue 117.0, cumulative revenue
175.5; period 3 the identical increment, cumulative 25.0 and cumulative
revenue 292.5. -/
theorem example_scenario_exact :
    calculate_projections 100 10 3 =
      [⟨1, 100, 100, 5, 5, 5, 5, "Affiliate", 30, 195, 58.5, 58.5, 29.25⟩,
       ⟨2, 100, 200, 10, 10, 15, 15, "Affiliate", 30, 390, 117, 175.5, 87.75⟩,
       ⟨3, 100, 300, 10, 10, 25, 25, "Affiliate", 30, 390, 117, 292.5, 146.25⟩] :=
  proj_example_eval

/-- C2: the tier lookup is total with half-open-below boundaries: exactly
1000 is Partner/60, exactly 2000 is Gold Partner/65, exactly 3000 is
Owner/70, and every non-negative value below 1000 is Affiliate/30. -/
theorem tier_boundary_exactness :
    (get_tier_name 1000 = "Partner" ∧ calculate_revenue_share 1000 = 60) ∧
    (get_tier_name 2000 = "Gold Partner" ∧ calculate_revenue_share 2000 = 65) ∧
    (get_tier_name 3000 = "Owner" ∧ calculate_revenue_share 3000 = 70) ∧
    ∀ q : ℚ, 0 ≤ q → q < 1000 →
      get_tier_name q = "Affiliate" ∧ calculate_revenue_share q = 30 := by
  refine ⟨⟨?_, ?_⟩, ⟨?_, ?_⟩, ⟨?_, ?_⟩, fun q h0 h1 => ⟨?_, ?_⟩⟩ <;>
    simp_all [get_tier_name, calculate_revenue_share] <;> norm_num

/-- Witness for C2 at the concrete value 999. -/
theorem tier_boundary_exactness_witness :
    get_tier_name 999 = "Affiliate" ∧ calculate_revenue_share 999 = 30 :=
  tier_boundary_exactness.2.2.2 999 (by norm_num) (by norm_num)

/-- C9: with numPeriods = 0 the simulation returns the empty record list,
raising no error and emitting no partial record. -/
theorem zero_periods_empty (monthly_new_users : ℕ) (conversion_rate : ℚ) :
    calculate_projections monthly_new_users conversion_rate 0 = [] := rfl

/-- C10: for monthlyNewUsers=1, conversionRate=10, numPeriods=1 the single
record displays 0 monthly converted users and 0 cumulative converted users
(integer truncation of 0.05) while its gross revenue, partner revenue and
cumulative partner revenue are strictly positive. -/
theorem truncated_display_positive_revenue :
    ∃ r : ProjRecord, calculate_projections 1 10 1 = [r] ∧
      r.converted_users_monthly = 0 ∧ r.cumulative_converted_disp = 0 ∧
      0 < r.gross_revenue ∧ 0 < r.partner_revenue ∧ 0 < r.cumulative_revenue := by
  refine ⟨⟨1, 1, 1, 0.05, 0, 0.05, 0, "Affiliate", 30, 1.95, 0.585, 0.585, 0.2925⟩,
    ?_, by norm_num, by norm_num, by norm_num, by norm_num, by norm_num⟩
  norm_num [calculate_projections, calcFrom, simStep, converted_of, int_trunc,
    get_tier_name, calculate_revenue_share, ProjRecord.mk.injEq]

/-- Truncation toward zero agrees with the floor on non-negative values. -/
lemma int_trunc_of_nonneg {q : ℚ} (h : 0 ≤ q) : int_trunc q = ⌊q⌋ := by
  rw [int_trunc, if_pos h]

/-- Truncation toward zero is monotone. -/
lemma int_trunc_mono {a b : ℚ} (h : a ≤ b) : int_trunc a ≤ int_trunc b := by
  unfold int_trunc
  split_ifs with h1 h2 h2
  · exact Int.floor_le_floor h
  · linarith
  · refine le_trans (Int.ceil_le.2 ?_) (Int.floor_nonneg.2 h2)
    push_cast
    linarith
  · exact Int.ceil_le_ceil h

/-- The revenue share percentage is always non-negative. -/
lemma share_nonneg (q : ℚ) : 0 ≤ calculate_revenue_share q := by
  unfold calculate_revenue_share
  split_ifs <;> norm_num

/-- The revenue share percentage is a monotone function of converted users. -/
lemma share_mono {a b : ℚ} (h : a ≤ b) :
    calculate_revenue_share a ≤ calculate_revenue_share b := by
  unfold calculate_revenue_share
  split_ifs <;> linarith

/-- Evaluation of the rank of each tier name. -/
lemma tier_rank_affiliate : tier_rank "Affiliate" = 0 := rfl

/-- Evaluation of the rank of the Partner tier name. -/
lemma tier_rank_partner : tier_rank "Partner" = 1 := rfl

/-- Evaluation of the rank of the Gold Partner tier name. -/
lemma tier_rank_gold : tier_rank "Gold Partner" = 2 := rfl

/-- Evaluation of the rank of the Owner tier name. -/
lemma tier_rank_owner : tier_rank "Owner" = 3 := rfl

/-- The tier rank is a monotone function of converted users. -/
lemma tier_rank_mono {a b : ℚ} (h : a ≤ b) :
    tier_rank (get_tier_name a) ≤ tier_rank (get_tier_name b) := by
  unfold get_tier_name
  split_ifs <;>
    simp only [tier_rank_affiliate, tier_rank_partner, tier_rank_gold, tier_rank_owner] <;>
    first
      | decide
      | (exfalso; linarith)

/-- Comparison with the integer tier thresholds commutes with the floor. -/
lemma floor_cast_lt_iff (q : ℚ) (n : ℤ) : ((⌊q⌋ : ℚ) < (n : ℚ)) ↔ q < (n : ℚ) := by
  rw [Int.cast_lt]
  exact Int.floor_lt

/-- Tier name and revenue share computed from the truncated value agree
with those computed from the full-precision value, for non-negative
inputs: the thresholds are integers, so flooring cannot cross them. -/
lemma tier_trunc_consistent (q : ℚ) (h : 0 ≤ q) :
    get_tier_name ((int_trunc q : ℤ) : ℚ) = get_tier_name q ∧
    calculate_revenue_share ((int_trunc q : ℤ) : ℚ) = calculate_revenue_share q := by
  rw [int_trunc_of_nonneg h]
  have h1 : ((⌊q⌋ : ℚ) < 1000) ↔ q < 1000 := by
    have := floor_cast_lt_iff q 1000; norm_num at this; exact this
  have h2 : ((⌊q⌋ : ℚ) < 2000) ↔ q < 2000 := by
    have := floor_cast_lt_iff q 2000; norm_num at this; exact this
  have h3 : ((⌊q⌋ : ℚ) < 3000) ↔ q < 3000 := by
    have := floor_cast_lt_iff q 3000; norm_num at this; exact this
  constructor <;> simp only [get_tier_name, calculate_revenue_share, h1, h2, h3]

/-- The monthly converted-user count is non-negative whenever the
conversion rate is. -/
lemma converted_of_nonneg (mnu : ℕ) {cr : ℚ} (hcr : 0 ≤ cr) (month : ℕ) :
    0 ≤ converted_of mnu cr month := by
  unfold converted_of
  split_ifs <;> positivity

/-- Every record emitted by the loop from a non-negative accumulator has
its stored tier and share reproducible from its truncated cumulative
converted value. -/
lemma calcFrom_tier_consistent (mnu : ℕ) {cr : ℚ} (hcr : 0 ≤ cr) :
    ∀ (remaining month : ℕ) (s : SimState), 0 ≤ s.cumulative_converted →
      ∀ r ∈ calcFrom mnu cr month remaining s,
        get_tier_name ((r.cumulative_converted_disp : ℤ) : ℚ) = r.tier ∧
        calculate_revenue_share ((r.cumulative_converted_disp : ℤ) : ℚ) =
          r.revenue_share_pct := by
  intro remaining
  induction remaining with
  | zero => intro month s hs r hr; simp [calcFrom] at hr
  | succ k ih =>
    intro month s hs r hr
    simp only [calcFrom, List.mem_cons] at hr
    have hconv := converted_of_nonneg mnu hcr month
    have hs' : 0 ≤ s.cumulative_converted + converted_of mnu cr month :=
      add_nonneg hs hconv
    rcases hr with rfl | hr
    · simp only [simStep]
      exact tier_trunc_consistent _ hs'
    · exact ih (month + 1) (simStep mnu cr month s).1 (by simp only [simStep]; exact hs') r hr

/-- C3: for every valid input and every emitted record, applying the tier
lookup to the record's stored (integer-truncated) cumulative converted
value exactly reproduces the record's stored tier name and revenue share
percent, although the tier lookup in the loop used the full-precision
accumulator. -/
theorem tier_consistency (mnu : ℕ) (cr : ℚ) (n : ℕ)
    (hcr0 : 0 ≤ cr) (hcr1 : cr ≤ 100) (hn : 1 ≤ n) :
    ∀ r ∈ calculate_projections mnu cr n,
      get_tier_name ((r.cumulative_converted_disp : ℤ) : ℚ) = r.tier ∧
      calculate_revenue_share ((r.cumulative_converted_disp : ℤ) : ℚ) =
        r.revenue_share_pct :=
  calcFrom_tier_consistent mnu hcr0 n 1 ⟨0, 0, 0⟩ le_rfl

/-- Witness for C3 on the second record of the example scenario. -/
theorem tier_consistency_witness :
    get_tier_name ((15 : ℤ) : ℚ) = "Affiliate" ∧
    calculate_revenue_share ((15 : ℤ) : ℚ) = 30 :=
  tier_consistency 100 10 3 (by norm_num) (by norm_num) (by norm_num)
    ⟨2, 100, 200, 10, 10, 15, 15, "Affiliate", 30, 390, 117, 175.5, 87.75⟩
    (by rw [proj_example_eval]; exact List.mem_cons_of_mem _ (List.mem_cons_self _ _))

/-- All the per-record quantities that only grow from one period to the
next. -/
def recLE (r1 r2 : ProjRecord) : Prop :=
  r1.cumulative_users ≤ r2.cumulative_users ∧
  r1.cumulative_converted ≤ r2.cumulative_converted ∧
  r1.cumulative_converted_disp ≤ r2.cumulative_converted_disp ∧
  r1.cumulative_revenue ≤ r2.cumulative_revenue ∧
  r1.revenue_share_pct ≤ r2.revenue_share_pct ∧
  tier_rank r1.tier ≤ tier_rank r2.tier

/-- The same quantities, read off a loop state on the left and a record
on the right. -/
def stateRecLE (s : SimState) (r : ProjRecord) : Prop :=
  s.cumulative_users ≤ r.cumulative_users ∧
  s.cumulative_converted ≤ r.cumulative_converted ∧
  int_trunc s.cumulative_converted ≤ r.cumulative_converted_disp ∧
  s.cumulative_revenue ≤ r.cumulative_revenue ∧
  calculate_revenue_share s.cumulative_converted ≤ r.revenue_share_pct ∧
  tier_rank (get_tier_name s.cumulative_converted) ≤ tier_rank r.tier

/-- One loop iteration only grows every cumulative quantity. -/
lemma simStep_state_rec (mnu : ℕ) {cr : ℚ} (hcr : 0 ≤ cr) (month : ℕ) (s : SimState) :
    stateRecLE s (simStep mnu cr month s).2 := by
  have hconv := converted_of_nonneg mnu hcr month
  have hcc : s.cumulative_converted ≤ s.cumulative_converted + converted_of mnu cr month :=
    le_add_of_nonneg_right hconv
  refine ⟨?_, ?_, ?_, ?_, ?_, ?_⟩ <;> simp only [simStep, stateRecLE]
  · exact Nat.le_add_right _ _
  · exact hcc
  · exact int_trunc_mono hcc
  · have : 0 ≤ converted_of mnu cr month * 39 *
        (calculate_revenue_share (s.cumulative_converted + converted_of mnu cr month) / 100) := by
      have := share_nonneg (s.cumulative_converted + converted_of mnu cr month)
      positivity
    linarith
  · exact share_mono hcc
  · exact tier_rank_mono hcc

/-- A record produced by one iteration inherits the growth facts of the
post-iteration state. -/
lemma simStep_rec_of_state (mnu : ℕ) (cr : ℚ) (month : ℕ) (s : SimState) (r : ProjRecord)
    (h : stateRecLE (simStep mnu cr month s).1 r) : recLE (simStep mnu cr month s).2 r := by
  simp only [simStep, stateRecLE, recLE, int_trunc] at h ⊢
  exact h

/-- The record list produced by the loop is a chain for `recLE`, and its
first record dominates the starting state. -/
lemma calcFrom_chain (mnu : ℕ) {cr : ℚ} (hcr : 0 ≤ cr) :
    ∀ (remaining month : ℕ) (s : SimState),
      List.Chain' recLE (calcFrom mnu cr month remaining s) ∧
      ∀ r, (calcFrom mnu cr month remaining s).head? = some r → stateRecLE s r := by
  intro remaining
  induction remaining with
  | zero =>
    intro month s
    refine ⟨by simp [calcFrom], fun r hr => ?_⟩
    simp [calcFrom] at hr
  | succ k ih =>
    intro month s
    obtain ⟨ih1, ih2⟩ := ih (month + 1) (simStep mnu cr month s).1
    constructor
    · simp only [calcFrom]
      refine List.chain'_cons'.2 ⟨fun h hh => ?_, ih1⟩
      exact simStep_rec_of_state mnu cr month s h (ih2 h hh)
    · intro r hr
      simp only [calcFrom, List.head?_cons, Option.some.injEq] at hr
      rw [← hr]
      exact simStep_state_rec mnu hcr month s

/-- The cumulative fields compared between two records: total users,
converted users (both the real accumulator and the stored truncation) and
partner revenue. -/
def cumulativeLE (r1 r2 : ProjRecord) : Prop :=
  r1.cumulative_users ≤ r2.cumulative_users ∧
  r1.cumulative_converted ≤ r2.cumulative_converted ∧
  r1.cumulative_converted_disp ≤ r2.cumulative_converted_disp ∧
  r1.cumulative_revenue ≤ r2.cumulative_revenue

/-- C4: for every valid input, cumulative users, cumulative converted
users and cumulative partner revenue are non-decreasing from each period
to the next. -/
theorem cumulative_monotone (mnu : ℕ) (cr : ℚ) (n : ℕ)
    (hcr0 : 0 ≤ cr) (hcr1 : cr ≤ 100) (hn : 1 ≤ n) :
    List.Chain' cumulativeLE (calculate_projections mnu cr n) :=
  List.Chain'.imp (fun _ _ h => ⟨h.1, h.2.1, h.2.2.1, h.2.2.2.1⟩)
    (calcFrom_chain mnu hcr0 n 1 ⟨0, 0, 0⟩).1

/-- Witness for C4 on the example scenario. -/
theorem cumulative_monotone_witness :
    List.Chain' cumulativeLE (calculate_projections 100 10 3) :=
  cumulative_monotone 100 10 3 (by norm_num) (by norm_num) (by norm_num)

/-- The tier fields compared between two records: share percent and the
rank of the tier name in the schedule order. -/
def tierLE (r1 r2 : ProjRecord) : Prop :=
  r1.revenue_share_pct ≤ r2.revenue_share_pct ∧
  tier_rank r1.tier ≤ tier_rank r2.tier

/-- C5: for every valid input the revenue share percent is non-decreasing
over the period sequence and the tier never downgrades in the schedule
order Affiliate < Partner < Gold Partner < Owner. -/
theorem tier_never_downgrades (mnu : ℕ) (cr : ℚ) (n : ℕ)
    (hcr0 : 0 ≤ cr) (hcr1 : cr ≤ 100) (hn : 1 ≤ n) :
    List.Chain' tierLE (calculate_projections mnu cr n) :=
  List.Chain'.imp (fun _ _ h => ⟨h.2.2.2.2.1, h.2.2.2.2.2⟩)
    (calcFrom_chain mnu hcr0 n 1 ⟨0, 0, 0⟩).1

/-- Witness for C5 on the example scenario. -/
theorem tier_never_downgrades_witness :
    List.Chain' tierLE (calculate_projections 100 10 3) :=
  tier_never_downgrades 100 10 3 (by norm_num) (by norm_num) (by norm_num)

/-- C6: whenever at least two periods are simulated, the first period's
converted-user count is exactly half of the second period's: the tuning
discount applies only to period 1, later periods use the full rate. -/
theorem tuning_period_half (mnu : ℕ) (cr : ℚ) (n : ℕ) (hn : 2 ≤ n) :
    ((calculate_projections mnu cr n).getD 0 default).converted_users =
      ((calculate_projections mnu cr n).getD 1 default).converted_users / 2 := by
  obtain ⟨k, rfl⟩ : ∃ k, n = k + 2 := ⟨n - 2, by omega⟩
  have hl : calculate_projections mnu cr (k + 2) =
      (simStep mnu cr 1 ⟨0, 0, 0⟩).2 ::
        (simStep mnu cr 2 (simStep mnu cr 1 ⟨0, 0, 0⟩).1).2 ::
          calcFrom mnu cr 3 k (simStep mnu cr 2 (simStep mnu cr 1 ⟨0, 0, 0⟩).1).1 := rfl
  rw [hl]
  show converted_of mnu cr 1 = converted_of mnu cr 2 / 2
  simp only [converted_of]
  norm_num
  ring

/-- Witness for C6 on the example scenario. -/
theorem tuning_period_half_witness :
    ((calculate_projections 100 10 3).getD 0 default).converted_users =
      ((calculate_projections 100 10 3).getD 1 default).converted_users / 2 :=
  tuning_period_half 100 10 3 (by norm_num)

/-- C7: the additional revenue per student is the unit price 39 times the
conversion rate over 100 times the final share percent (that of the last
simulated record) over 100; the additional revenue percentage divides it
by the current average revenue per student when that is positive and is
the defined fallback 0 when it is zero. -/
theorem comparison_metrics_spec (mnu : ℕ) (cr current_avg_revenue : ℚ) (n : ℕ)
    (hn : 1 ≤ n) (final_share_pct : ℚ)
    (hfp : ((calculate_projections mnu cr n).getLast?.getD default).revenue_share_pct =
      final_share_pct) :
    partner_revenue_per_student cr final_share_pct =
      39 * (cr / 100) * (final_share_pct / 100) ∧
    (0 < current_avg_revenue →
      additional_revenue_percentage cr current_avg_revenue final_share_pct =
        partner_revenue_per_student cr final_share_pct / current_avg_revenue * 100) ∧
    (current_avg_revenue = 0 →
      additional_revenue_percentage cr current_avg_revenue final_share_pct = 0) := by
  refine ⟨rfl, fun h => ?_, fun h => ?_⟩
  · rw [additional_revenue_percentage, if_pos h]
  · rw [additional_revenue_percentage, if_neg (by rw [h]; exact lt_irrefl 0)]

/-- Witness for C7 on the example scenario with a positive current
average revenue. -/
theorem comparison_metrics_spec_witness :
    partner_revenue_per_student 10 30 = 39 * (10 / 100) * (30 / 100) ∧
    ((0 : ℚ) < 25 →
      additional_revenue_percentage 10 25 30 =
        partner_revenue_per_student 10 30 / 25 * 100) ∧
    ((25 : ℚ) = 0 → additional_revenue_percentage 10 25 30 = 0) :=
  comparison_metrics_spec 100 10 25 3 (by norm_num) 30
    (by rw [proj_example_eval]; rfl)

/-- C8: when the per-period conversion is positive, the months to reach
the Partner threshold 1000 is the ceiling of 1000 over the per-period
conversion; when it is non-positive — in particular when the conversion
rate or the monthly new users are zero — the result is the not-applicable
value, with no error raised. -/
theorem months_to_partner_spec (mnu : ℕ) (cr : ℚ) :
    (0 < (mnu : ℚ) * cr / 100 →
      months_to_partner mnu cr = some ⌈1000 / ((mnu : ℚ) * cr / 100)⌉) ∧
    ((mnu : ℚ) * cr / 100 ≤ 0 → months_to_partner mnu cr = none) ∧
    (cr = 0 → months_to_partner mnu cr = none) ∧
    (mnu = 0 → months_to_partner mnu cr = none) := by
  refine ⟨fun h => ?_, fun h => ?_, fun h => ?_, fun h => ?_⟩
  · rw [months_to_partner, if_pos h]
  · rw [months_to_partner, if_neg (not_lt.2 h)]
  · subst h; rw [months_to_partner, if_neg (by norm_num)]
  · subst h; rw [months_to_partner, if_neg (by norm_num)]

/-- Witness for C8: with 100 monthly users at a 10 percent rate the
Partner tier takes 100 months. -/
theorem months_to_partner_spec_witness : months_to_partner 100 10 = some 100 := by
  have h := (months_to_partner_spec 100 10).1 (by norm_num)
  rw [h]
  norm_num
